import Mathlib

/-!
Verification of the VoiceType speech-to-text tool (Go) against its
natural-language specification.  The Go source is shallowly embedded:
each Go function relevant to a claim becomes a Lean function over an
explicit state / environment, with process-external effects (spawned
commands, files, signals) represented as explicit inputs and outputs.
-/

set_option linter.unusedVariables false

namespace VoiceType

/-! ## Audio capture system — `internal/audio/system.go`

`System` keeps the fields that the recording logic reads and writes:
`isRecording` and `audioBuffer` (bytes modelled as `List Nat`).  The
`arecord` subprocess and its stdout pipe are external; whether spawning
it succeeds is an explicit `execOk` input, and the bytes it produces
arrive through `readAudio`. -/

namespace Audio

inductive AudioErr where
  | alreadyRecording
  | notRecording
  | audioTooShort
  | startFailed
  deriving DecidableEq, Repr

structure System where
  isRecording : Bool
  audioBuffer : List Nat
  deriving DecidableEq, Repr

/-- `System.StartRecording` (system.go lines 49–84): error if already
recording; otherwise reset `audioBuffer` to empty, spawn `arecord`
(`execOk` says whether the pipe/start succeeded) and set `isRecording`. -/
def System.StartRecording (s : System) (execOk : Bool) : System × Option AudioErr :=
  if s.isRecording then (s, some AudioErr.alreadyRecording)
  else
    let s1 : System := { s with audioBuffer := [] }
    if execOk then ({ s1 with isRecording := true }, none)
    else (s1, some AudioErr.startFailed)

/-- `System.readAudio` (system.go lines 86–98): while recording, chunks
read from the arecord pipe are appended to `audioBuffer`. -/
def System.readAudio (s : System) (chunks : List (List Nat)) : System :=
  if s.isRecording then { s with audioBuffer := s.audioBuffer ++ chunks.flatten } else s

/-- `System.StopRecording` (system.go lines 101–129): typed error when not
recording (state untouched); otherwise clear `isRecording`, kill arecord,
and return `ErrAudioTooShort` when the buffer is empty, else a copy of
the captured bytes, clearing the internal buffer. -/
def System.StopRecording (s : System) : System × Except AudioErr (List Nat) :=
  if s.isRecording = false then (s, Except.error AudioErr.notRecording)
  else
    let s1 : System := { s with isRecording := false }
    if s1.audioBuffer.isEmpty then (s1, Except.error AudioErr.audioTooShort)
    else ({ s1 with audioBuffer := [] }, Except.ok s1.audioBuffer)

/-- One full capture session: start (spawn succeeds), receive `chunks`
from the microphone, stop. -/
def runSession (s : System) (chunks : List (List Nat)) : System × Except AudioErr (List Nat) :=
  match s.StartRecording true with
  | (s1, some e) => (s1, Except.error e)
  | (s1, none) => (s1.readAudio chunks).StopRecording

end Audio

/-! ## GUI session controller — `cmd/voicetype-gui/main.go`

`App` carries the guard fields of `VoiceTypeApp` that the toggle path
reads and writes under `app.mu`, plus the audio system.  UI calls,
animations and the transcription goroutine are outside the mutex-guarded
transition and are not part of the toggle state change. -/

namespace Gui

structure App where
  isRecording : Bool
  isProcessing : Bool
  lastToggle : Nat
  audio : Audio.System
  deriving DecidableEq, Repr

/-- Outcome of the GUI `stopRecording` before the async transcription
goroutine: whether the transcription client gets invoked at all. -/
inductive StopFlow where
  | errorNoTranscribe
  | emptyNoTranscribe
  | transcribeData (data : List Nat)
  deriving DecidableEq, Repr

inductive ToggleAction where
  | rejected
  | started
  | stopped (flow : StopFlow)
  deriving DecidableEq, Repr

/-- GUI `startRecording` (main.go lines 2203–2230): on audio-start error
just log and return; on success set `isRecording` and show the UI. -/
def guiStartRecording (app : App) (execOk : Bool) : App :=
  match app.audio.StartRecording execOk with
  | (a, some _) => { app with audio := a }
  | (a, none) => { app with audio := a, isRecording := true }

/-- GUI `stopRecording` (main.go lines 2232–2296): on `StopRecording`
error log, clear `isRecording` and return; on success clear
`isRecording`, and if the data is empty reset the UI and return without
transcribing, else set `isProcessing` and hand the data to the
transcription goroutine. -/
def guiStopRecording (app : App) : App × StopFlow :=
  match app.audio.StopRecording with
  | (a, Except.error _) =>
      ({ app with audio := a, isRecording := false }, StopFlow.errorNoTranscribe)
  | (a, Except.ok data) =>
      let app1 : App := { app with audio := a, isRecording := false }
      if data.isEmpty then (app1, StopFlow.emptyNoTranscribe)
      else ({ app1 with isProcessing := true }, StopFlow.transcribeData data)

/-- GUI `toggleRecording` (main.go lines 2185–2201): under the mutex,
reject when less than 600 ms have passed since `lastToggle` or while
`isProcessing`; otherwise record the new `lastToggle` and start or stop
depending on `isRecording`.  `now` is the current monotonic time in
milliseconds. -/
def toggleRecording (app : App) (now : Nat) (execOk : Bool) : App × ToggleAction :=
  if now - app.lastToggle < 600 ∨ app.isProcessing = true then (app, ToggleAction.rejected)
  else
    let app1 : App := { app with lastToggle := now }
    if app1.isRecording then
      let r := guiStopRecording app1
      (r.1, ToggleAction.stopped r.2)
    else (guiStartRecording app1 execOk, ToggleAction.started)

/-- Feed a sequence of toggle events (timestamp, audio-exec success)
through the controller, counting how many are accepted. -/
def runToggles (app : App) : List (Nat × Bool) → App × Nat
  | [] => (app, 0)
  | e :: rest =>
      let r := toggleRecording app e.1 e.2
      let rec' := runToggles r.1 rest
      (rec'.1, (if r.2 = ToggleAction.rejected then 0 else 1) + rec'.2)

/-! ### Single-instance coordinator — `main` (main.go lines 2024–2079)

The process-external state is the PID lock file at
`$TMPDIR/voicetype-gui.pid` and the liveness of recorded processes.
`pidFile` is `some pid` when the file exists and is readable (its text
parsed with `Sscanf "%d"`; unparsable text leaves the pid `0`), `none`
otherwise.  `alive pid` is the result of the `Signal(0)` liveness probe.
On Unix, `os.FindProcess` always succeeds whatever the pid, which is why
`findProcessOk` is constantly `true`; the error of the subsequent
`Signal` send on the control path is discarded by the code. -/

structure OsEnv where
  pidFile : Option Nat
  alive : Nat → Bool
  selfPid : Nat

/-- Result of `os.FindProcess` on Unix: always succeeds (documented Go
behavior); the code only checks its error. -/
def findProcessOk (pid : Nat) : Bool := true

inductive MainOutcome where
  | exit (code : Nat)
  | proceedAsPrimary (pidFileWritten : Nat)
  deriving DecidableEq, Repr

/-- Main-app path (main.go lines 2065–2079): if the PID file exists and
the recorded process answers the `Signal(0)` probe, forward `SIGUSR1`
and exit 0; otherwise write our own pid to the file and proceed as the
active instance (`proceedAsPrimary` records the pid written). -/
def mainAppPath (env : OsEnv) : MainOutcome :=
  match env.pidFile with
  | some oldPid =>
      if findProcessOk oldPid && env.alive oldPid then MainOutcome.exit 0
      else MainOutcome.proceedAsPrimary env.selfPid
  | none => MainOutcome.proceedAsPrimary env.selfPid

/-- `main` (main.go lines 2024–2079) after flag parsing.  With `--toggle`
or `--stop`: read the PID file; if readable, `os.FindProcess` the pid
(always succeeds on Unix), send `SIGUSR1`/`SIGTERM` (send error
discarded) and exit 0.  Otherwise `--toggle` falls through to start a
new instance while `--stop` prints "No running instance found." and
exits 1.  Without control flags, run the single-instance check. -/
def runMain (flagToggle flagStop : Bool) (env : OsEnv) : MainOutcome :=
  if flagToggle || flagStop then
    match env.pidFile with
    | some pid =>
        if findProcessOk pid then MainOutcome.exit 0
        else if flagToggle then mainAppPath env else MainOutcome.exit 1
    | none =>
        if flagToggle then mainAppPath env else MainOutcome.exit 1
  else mainAppPath env

end Gui

/-! ## Transcription client — `internal/api/client.go`

The HTTP exchange is external: `HttpResult` is either a transport
failure of `httpClient.Do` or a response with status, raw body and the
result of JSON-decoding the body into the `Response` struct (`decoded`,
carrying the `text` field on success).  WAV encoding (`pkg/wav`, called
before the request) can fail; `wavOk` is that outcome.  Form building
and request construction write to in-memory buffers with a constant URL
and cannot fail. -/

namespace Api

inductive RespError where
  | apiKeyInvalid
  | rateLimited
  | badRequest (body : String)
  | serverError (body : String)
  | apiError (status : Nat) (body : String)
  deriving DecidableEq, Repr

/-- `Client.handleErrorResponse` (client.go lines 136–151): 401 →
`ErrAPIKeyInvalid`, 429 → `ErrRateLimited`, 400 → "bad request", 500,
502, 503, 504 → "server error", anything else → generic
"API error (status …)". -/
def handleErrorResponse (status : Nat) (body : String) : RespError :=
  if status = 401 then RespError.apiKeyInvalid
  else if status = 429 then RespError.rateLimited
  else if status = 400 then RespError.badRequest body
  else if status = 500 ∨ status = 502 ∨ status = 503 ∨ status = 504 then
    RespError.serverError body
  else RespError.apiError status body

inductive HttpResult where
  | netFail
  | response (status : Nat) (body : String) (decoded : Option String)
  deriving DecidableEq, Repr

inductive TranscribeError where
  | audioTooShort
  | wavEncodeFailed
  | networkError
  | httpError (e : RespError)
  | decodeFailed
  deriving DecidableEq, Repr

/-- `Client.Transcribe` (client.go lines 69–133): empty audio →
`ErrAudioTooShort`; WAV-encode failure → wrapped API error; transport
failure → wrapped network error; non-200 status →
`handleErrorResponse`; 200 with undecodable body → wrapped decode
error; otherwise the decoded `text`. -/
def Transcribe (audioData : List Nat) (wavOk : Bool) (http : HttpResult) :
    Except TranscribeError String :=
  if audioData.isEmpty then Except.error TranscribeError.audioTooShort
  else if wavOk = false then Except.error TranscribeError.wavEncodeFailed
  else
    match http with
    | HttpResult.netFail => Except.error TranscribeError.networkError
    | HttpResult.response status body decoded =>
        if status ≠ 200 then
          Except.error (TranscribeError.httpError (handleErrorResponse status body))
        else
          match decoded with
          | none => Except.error TranscribeError.decodeFailed
          | some text => Except.ok text

/-- Whether a transcription failure is the "server error" typed failure. -/
def isServerErr : TranscribeError → Bool
  | TranscribeError.httpError (RespError.serverError _) => true
  | _ => false

end Api

/-! ## Hotkey detector — `hotkey` package (src/unnamed/part_001)

`resolveKeycodes` parses `xmodmap -pk` output (an optional string:
`none` when running xmodmap failed).  `pollKeyPressX11Setup` is the
setup phase of `pollKeyPressX11` up to entering the polling loop. -/

namespace Hotkey

def defaultCtrlCodes : List String := ["37", "105"]

def defaultSpaceCodes : List String := ["65"]

/-- `strings.Contains line pat` for the non-empty patterns used below. -/
def containsSubstr (line pat : String) : Bool := 2 ≤ (line.splitOn pat).length

/-- `strings.Fields`: split on whitespace, dropping empty fields. -/
def goFields (line : String) : List String :=
  (line.split fun c => c == ' ' || c == '\t').filter (fun s => s ≠ "")

/-- `fmt.Sscanf s "%d" …` succeeds iff `s` starts with an optional sign
followed by at least one digit. -/
def sscanfIntOk (s : String) : Bool :=
  let t := if s.startsWith "-" || s.startsWith "+" then s.drop 1 else s
  (t.takeWhile Char.isDigit) ≠ ""

/-- The keysym-variation patterns matched against each xmodmap line
(part_001 lines 154–160). -/
def matchesName (line name : String) : Bool :=
  containsSubstr line (" " ++ name ++ " ") ||
  containsSubstr line (" " ++ name ++ ")") ||
  containsSubstr line ("(" ++ name ++ ")") ||
  containsSubstr line ("= " ++ name)

/-- Code extraction from a matched line (part_001 lines 171–188): needs
at least two fields; "keycode NN = …" lines yield field 1, "NN 0x…"
lines yield field 0 when it scans as an integer. -/
def lineCode (line : String) : Option String :=
  let fs := goFields line
  if fs.length < 2 then none
  else if fs.head? = some "keycode" then fs[1]?
  else
    match fs.head? with
    | some f0 => if sscanfIntOk f0 then some f0 else none
    | none => none

/-- `Listener.resolveKeycodes` (part_001 lines 144–192): empty when
xmodmap itself failed; otherwise for each requested name collect the
codes of every matching output line. -/
def resolveKeycodes (xmodmapOut : Option String) (names : List String) : List String :=
  match xmodmapOut with
  | none => []
  | some out =>
      let ls := out.splitOn "\n"
      names.foldl (fun codes name =>
        ls.foldl (fun codes line =>
          if matchesName line name then
            match lineCode line with
            | some c => codes ++ [c]
            | none => codes
          else codes) codes) []

inductive PollSetup where
  | genericFallback
  | poll (ctrlCodes spaceCodes : List String)
  deriving DecidableEq, Repr

/-- Setup phase of `Listener.pollKeyPressX11` (part_001 lines 74–96):
no keyboard id → generic polling fallback; otherwise resolve the chord
keycodes and, when either component resolves to an empty code set, log a
warning and enter the polling loop with the hard-coded defaults
(37, 105 for Ctrl and 65 for Space). -/
def pollKeyPressX11Setup (keyboardID : String) (xmodmapOut : Option String) : PollSetup :=
  if keyboardID = "" then PollSetup.genericFallback
  else
    let ctrlCodes := resolveKeycodes xmodmapOut ["Control_L", "Control_R"]
    let spaceCodes := resolveKeycodes xmodmapOut ["space"]
    if ctrlCodes.isEmpty || spaceCodes.isEmpty then
      PollSetup.poll defaultCtrlCodes defaultSpaceCodes
    else PollSetup.poll ctrlCodes spaceCodes

end Hotkey

/-! ## Typing engine — `typing` package (src/unnamed/part_004, first file)

The external world is: the display protocol (`isWayland`, from
`WAYLAND_DISPLAY`), which command-line tools `exec.LookPath` finds
(`avail`), and whether running a given command succeeds (`cmdOk`).
Each function returns the list of commands it spawned (each a
program-and-arguments list) together with its success. -/

namespace Typing

structure Env where
  isWayland : Bool
  avail : String → Bool
  cmdOk : List String → Bool

/-- `System.SetPrimarySelection` (part_004 lines 112–138): writes the
text to BOTH the clipboard and the primary selections — `wl-copy` twice
on Wayland, else `xclip`/`xsel` twice on X11 — succeeding whenever a
tool exists (the spawned commands' own results are discarded). -/
def SetPrimarySelection (env : Env) (text : String) : List (List String) × Bool :=
  if env.isWayland && env.avail "wl-copy" then
    ([["wl-copy", text], ["wl-copy", "--primary", text]], true)
  else if env.avail "xclip" then
    ([["xclip", "-selection", "clipboard", text],
      ["xclip", "-selection", "primary", text]], true)
  else if env.avail "xsel" then
    ([["xsel", "--clipboard", "--input", text],
      ["xsel", "--primary", "--input", text]], true)
  else ([], false)

/-- `System.PasteText` (part_004 lines 81–109): priority 1 is the
Ctrl+V chord (wtype on Wayland, then xdotool), priority 2 the
Shift+Insert chord (same order); first command that runs successfully
wins, else an aggregate failure. -/
def PasteText (env : Env) : List (List String) × Bool :=
  let wCtrlV := ["wtype", "-M", "ctrl", "-k", "v"]
  let xCtrlV := ["xdotool", "key", "--clearmodifiers", "ctrl+v"]
  let wShIns := ["wtype", "-M", "shift", "-k", "Insert"]
  let xShIns := ["xdotool", "key", "--clearmodifiers", "shift+Insert"]
  if env.isWayland && env.avail "wtype" && env.cmdOk wCtrlV then ([wCtrlV], true)
  else
    let t1 : List (List String) := if env.isWayland && env.avail "wtype" then [wCtrlV] else []
    if env.avail "xdotool" && env.cmdOk xCtrlV then (t1 ++ [xCtrlV], true)
    else
      let t2 := t1 ++ (if env.avail "xdotool" then [xCtrlV] else [])
      if env.isWayland && env.avail "wtype" && env.cmdOk wShIns then (t2 ++ [wShIns], true)
      else
        let t3 := t2 ++ (if env.isWayland && env.avail "wtype" then [wShIns] else [])
        if env.avail "xdotool" && env.cmdOk xShIns then (t3 ++ [xShIns], true)
        else (t3 ++ (if env.avail "xdotool" then [xShIns] else []), false)

/-- `System.PressEnter` (part_004 lines 192–203). -/
def PressEnter (env : Env) : List (List String) × Bool :=
  if env.isWayland && env.avail "wtype" then
    ([["wtype", "-k", "Return"]], env.cmdOk ["wtype", "-k", "Return"])
  else if env.avail "xdotool" then
    ([["xdotool", "key", "Return"]], env.cmdOk ["xdotool", "key", "Return"])
  else ([], false)

/-- The direct-typing fallback block of `System.TypeText` (part_004
lines 43–77): try `ydotool type`, then `wtype`, then `xdotool type`,
each followed by the trailing Enter when requested; exhausting all three
yields the aggregate failure. -/
def directTypeFallback (env : Env) (text : String) (pressEnter : Bool) :
    List (List String) × Bool :=
  let yCmd := ["ydotool", "type", text]
  let wCmd := ["wtype", text]
  let xCmd := ["xdotool", "type", "--clearmodifiers", "--delay", "2", text]
  if env.avail "ydotool" && env.cmdOk yCmd then
    ([yCmd] ++ (if pressEnter then [["ydotool", "key", "28:1", "28:0"]] else []), true)
  else
    let c1 : List (List String) := if env.avail "ydotool" then [yCmd] else []
    if env.avail "wtype" && env.cmdOk wCmd then
      (c1 ++ [wCmd] ++ (if pressEnter then [["wtype", "-k", "Return"]] else []), true)
    else
      let c2 := c1 ++ (if env.avail "wtype" then [wCmd] else [])
      if env.avail "xdotool" && env.cmdOk xCmd then
        (c2 ++ [xCmd] ++ (if pressEnter then (PressEnter env).1 else []), true)
      else
        (c2 ++ (if env.avail "xdotool" then [xCmd] else []), false)

/-- `System.TypeText` (part_004 lines 22–78): set the selections (a
failure is only a logged warning), attempt the paste chord; on paste
success optionally press Enter and return success — the fallback is
never reached.  On paste failure run the direct-typing fallback, whose
result becomes the overall result. -/
def TypeText (env : Env) (text : String) (pressEnter : Bool) : List (List String) × Bool :=
  let sel := SetPrimarySelection env text
  let p := PasteText env
  if p.2 then
    (sel.1 ++ p.1 ++ (if pressEnter then (PressEnter env).1 else []), true)
  else
    let fb := directTypeFallback env text pressEnter
    (sel.1 ++ p.1 ++ fb.1, fb.2)

/-- A spawned command that synthesizes text as keystrokes (strategy 2's
typing commands): `ydotool type …`, `xdotool type …`, or `wtype TEXT`. -/
def isDirectTypeCmd (c : List String) : Bool :=
  match c with
  | [] => false
  | t :: rest =>
      (t == "wtype" && rest.length == 1) ||
      ((t == "ydotool" || t == "xdotool") && rest.head? == some "type")

/-- Concrete X11 environment with xclip and xdotool installed and every
spawned command succeeding. -/
def x11Env : Env :=
  { isWayland := false
    avail := fun t => t == "xclip" || t == "xdotool"
    cmdOk := fun _ => true }

end Typing

/-! ## Helper lemmas -/

theorem guiStart_lastToggle (app : Gui.App) (ok : Bool) :
    (Gui.guiStartRecording app ok).lastToggle = app.lastToggle := by
  unfold Gui.guiStartRecording
  rcases h : Audio.System.StartRecording app.audio ok with ⟨a, e⟩
  rcases e with _ | _ <;> simp [h]

theorem guiStop_lastToggle (app : Gui.App) :
    (Gui.guiStopRecording app).1.lastToggle = app.lastToggle := by
  unfold Gui.guiStopRecording
  rcases h : Audio.System.StopRecording app.audio with ⟨a, r⟩
  rcases r with e | d
  · simp [h]
  · simp only [h]
    split <;> simp

theorem toggle_rejected_eq (app : Gui.App) (now : Nat) (ok : Bool)
    (h : now - app.lastToggle < 600 ∨ app.isProcessing = true) :
    Gui.toggleRecording app now ok = (app, Gui.ToggleAction.rejected) := by
  unfold Gui.toggleRecording
  rw [if_pos h]

theorem toggle_accepted_state (app : Gui.App) (now : Nat) (ok : Bool)
    (h : ¬(now - app.lastToggle < 600 ∨ app.isProcessing = true)) :
    (Gui.toggleRecording app now ok).1.lastToggle = now ∧
    (Gui.toggleRecording app now ok).2 ≠ Gui.ToggleAction.rejected := by
  unfold Gui.toggleRecording
  rw [if_neg h]
  by_cases hr : app.isRecording = true
  · simp [hr, guiStop_lastToggle]
  · simp [hr, guiStart_lastToggle]

theorem runToggles_all_rejected (evs : List (Nat × Bool)) (app : Gui.App)
    (h : ∀ e ∈ evs, e.1 - app.lastToggle < 600 ∨ app.isProcessing = true) :
    Gui.runToggles app evs = (app, 0) := by
  induction evs with
  | nil => rfl
  | cons e rest ih =>
      have hstep := toggle_rejected_eq app e.1 e.2 (h e (by simp))
      have hrest := ih (fun e' he' => h e' (by simp [he']))
      simp [Gui.runToggles, hstep, hrest]

theorem runToggles_burst (evs : List (Nat × Bool)) (app : Gui.App) (t : Nat)
    (h : ∀ e ∈ evs, t ≤ e.1 ∧ e.1 < t + 600) :
    (Gui.runToggles app evs).2 ≤ 1 := by
  induction evs generalizing app with
  | nil => simp [Gui.runToggles]
  | cons e rest ih =>
      by_cases hg : e.1 - app.lastToggle < 600 ∨ app.isProcessing = true
      · have hstep := toggle_rejected_eq app e.1 e.2 hg
        have hrest := ih app (fun e' he' => h e' (by simp [he']))
        simp [Gui.runToggles, hstep]
        exact hrest
      · obtain ⟨hlast, hact⟩ := toggle_accepted_state app e.1 e.2 hg
        have hrest : Gui.runToggles (Gui.toggleRecording app e.1 e.2).1 rest =
            ((Gui.toggleRecording app e.1 e.2).1, 0) := by
          refine runToggles_all_rejected rest _ (fun e' he' => Or.inl ?_)
          have h1 := (h e (by simp)).1
          have h2 := (h e' (by simp [he'])).2
          rw [hlast]
          omega
        simp [Gui.runToggles, hrest, hact]

theorem sel_no_directType (env : Typing.Env) (text : String) :
    ∀ c ∈ (Typing.SetPrimarySelection env text).1, Typing.isDirectTypeCmd c = false := by
  unfold Typing.SetPrimarySelection
  split_ifs <;> intro c hc <;> simp at hc <;> rcases hc with rfl | rfl <;> rfl

theorem paste_no_directType (env : Typing.Env) :
    ∀ c ∈ (Typing.PasteText env).1, Typing.isDirectTypeCmd c = false := by
  unfold Typing.PasteText
  intro c hc
  dsimp only at hc
  split_ifs at hc <;> simp at hc <;> rcases hc with rfl | rfl | rfl | rfl <;> rfl

theorem enter_no_directType (env : Typing.Env) :
    ∀ c ∈ (Typing.PressEnter env).1, Typing.isDirectTypeCmd c = false := by
  unfold Typing.PressEnter
  split_ifs <;> intro c hc <;> simp at hc <;> subst hc <;> rfl

/-! ## Claims -/

/-- C1: every toggle request (hotkey callback, inter-process signal, or
any other source) arriving within 600 ms of the last accepted toggle, or
while `isProcessing` is set, is a no-op — the state, including the
recording flag and the last-toggle timestamp, is unchanged; a whole
sequence of such toggles leaves the state untouched and accepts none;
and of any burst of toggles inside a 600 ms window at most the first is
honored. -/
theorem C1_toggle_debounce :
    (∀ (app : Gui.App) (now : Nat) (ok : Bool),
        now - app.lastToggle < 600 ∨ app.isProcessing = true →
        Gui.toggleRecording app now ok = (app, Gui.ToggleAction.rejected)) ∧
    (∀ (app : Gui.App) (evs : List (Nat × Bool)),
        (∀ e ∈ evs, e.1 - app.lastToggle < 600 ∨ app.isProcessing = true) →
        Gui.runToggles app evs = (app, 0)) ∧
    (∀ (app : Gui.App) (t : Nat) (evs : List (Nat × Bool)),
        (∀ e ∈ evs, t ≤ e.1 ∧ e.1 < t + 600) →
        (Gui.runToggles app evs).2 ≤ 1) :=
  ⟨toggle_rejected_eq, fun app evs h => runToggles_all_rejected evs app h,
   fun app t evs h => runToggles_burst evs app t h⟩

/-- Witness for C1 at concrete inputs: a toggle 100 ms after the last
accepted one is rejected with the state unchanged; two toggles inside
the window accept none; a burst of three inside one 600 ms window
accepts at most one. -/
theorem C1_witness :
    Gui.toggleRecording ⟨false, false, 1000, ⟨false, []⟩⟩ 1100 true =
      (⟨false, false, 1000, ⟨false, []⟩⟩, Gui.ToggleAction.rejected) ∧
    Gui.runToggles ⟨false, false, 1000, ⟨false, []⟩⟩ [(1100, true), (1500, true)] =
      (⟨false, false, 1000, ⟨false, []⟩⟩, 0) ∧
    (Gui.runToggles ⟨false, false, 0, ⟨false, []⟩⟩ [(700, true), (800, true), (1000, true)]).2 ≤ 1 :=
  ⟨C1_toggle_debounce.1 _ 1100 true (by decide),
   C1_toggle_debounce.2.1 _ _ (by decide),
   C1_toggle_debounce.2.2 _ 700 _ (by decide)⟩

/-- C2 counterexample: stopping a recording whose capture yielded zero
bytes does NOT return an empty byte result without error — it returns
the typed `ErrAudioTooShort` error (system.go line 117). -/
theorem C2_counterexample :
    Audio.System.StopRecording ⟨true, []⟩ =
      (⟨false, []⟩, Except.error Audio.AudioErr.audioTooShort) := rfl

/-- C2 (amended): stopping a recording whose capture yielded zero bytes
makes `StopRecording` return the typed audio-too-short error and no
bytes; the GUI controller handles it by clearing the recording flag and
returning to idle, and the transcription client is never invoked
(`StopFlow.errorNoTranscribe`). -/
theorem C2_empty_capture_no_transcription (app : Gui.App)
    (h1 : app.audio.isRecording = true) (h2 : app.audio.audioBuffer = []) :
    Audio.System.StopRecording app.audio =
      (⟨false, []⟩, Except.error Audio.AudioErr.audioTooShort) ∧
    Gui.guiStopRecording app =
      ({ app with audio := ⟨false, []⟩, isRecording := false },
        Gui.StopFlow.errorNoTranscribe) := by
  have ha : app.audio = (⟨true, []⟩ : Audio.System) := by
    rcases hx : app.audio with ⟨r, b⟩
    rw [hx] at h1 h2
    simp_all
  constructor
  · rw [ha]
    rfl
  · unfold Gui.guiStopRecording
    rw [ha]
    rfl

/-- Witness for C2 at a concrete state. -/
theorem C2_witness :
    Audio.System.StopRecording (⟨true, []⟩ : Audio.System) =
      (⟨false, []⟩, Except.error Audio.AudioErr.audioTooShort) ∧
    Gui.guiStopRecording ⟨true, false, 0, ⟨true, []⟩⟩ =
      (⟨false, false, 0, ⟨false, []⟩⟩, Gui.StopFlow.errorNoTranscribe) :=
  C2_empty_capture_no_transcription ⟨true, false, 0, ⟨true, []⟩⟩ rfl rfl

/-- C3: exactly one delivery strategy executes per non-empty result.
When the selection-buffer paste (strategy 1) succeeds, `TypeText`
returns success having spawned only the selection, paste-chord and
optional Enter commands — no direct-typing command is ever synthesized.
When strategy 1 fails, the direct-typing fallback (strategy 2) runs and
its verdict is the overall one. -/
theorem C3_exactly_one_strategy (env : Typing.Env) (text : String) (pe : Bool) :
    ((Typing.PasteText env).2 = true →
      Typing.TypeText env text pe =
        ((Typing.SetPrimarySelection env text).1 ++ (Typing.PasteText env).1 ++
          (if pe then (Typing.PressEnter env).1 else []), true) ∧
      ∀ c ∈ (Typing.TypeText env text pe).1, Typing.isDirectTypeCmd c = false) ∧
    ((Typing.PasteText env).2 = false →
      Typing.TypeText env text pe =
        ((Typing.SetPrimarySelection env text).1 ++ (Typing.PasteText env).1 ++
          (Typing.directTypeFallback env text pe).1,
         (Typing.directTypeFallback env text pe).2)) := by
  constructor
  · intro hp
    have heq : Typing.TypeText env text pe =
        ((Typing.SetPrimarySelection env text).1 ++ (Typing.PasteText env).1 ++
          (if pe then (Typing.PressEnter env).1 else []), true) := by
      unfold Typing.TypeText
      simp only [hp]
      simp
    refine ⟨heq, ?_⟩
    rw [heq]
    intro c hc
    simp only [List.mem_append] at hc
    rcases hc with (hc | hc) | hc
    · exact sel_no_directType env text c hc
    · exact paste_no_directType env c hc
    · rcases pe with _ | _
      · simp at hc
      · exact enter_no_directType env c (by simpa using hc)
  · intro hp
    unfold Typing.TypeText
    simp only [hp]
    simp

/-- Witness for C3: with xclip and xdotool present and every command
succeeding, strategy 1 wins; with every command failing, the fallback
runs and returns the aggregate verdict. -/
theorem C3_witness :
    Typing.TypeText Typing.x11Env "hello" false =
      ((Typing.SetPrimarySelection Typing.x11Env "hello").1 ++
        (Typing.PasteText Typing.x11Env).1 ++
        (if false then (Typing.PressEnter Typing.x11Env).1 else []), true) ∧
    Typing.TypeText { Typing.x11Env with cmdOk := fun _ => false } "hi" false =
      ((Typing.SetPrimarySelection { Typing.x11Env with cmdOk := fun _ => false } "hi").1 ++
        (Typing.PasteText { Typing.x11Env with cmdOk := fun _ => false }).1 ++
        (Typing.directTypeFallback { Typing.x11Env with cmdOk := fun _ => false } "hi" false).1,
       (Typing.directTypeFallback { Typing.x11Env with cmdOk := fun _ => false } "hi" false).2) :=
  ⟨((C3_exactly_one_strategy Typing.x11Env "hello" false).1 rfl).1,
   (C3_exactly_one_strategy { Typing.x11Env with cmdOk := fun _ => false } "hi" false).2 rfl⟩

/-- C4 counterexample: on X11 with xclip and xdotool installed and every
command succeeding, the delivery writes the text to the GENERAL
CLIPBOARD selection as well, and the paste chord actually synthesized is
Ctrl+V — not Shift+Insert. -/
theorem C4_counterexample :
    Typing.SetPrimarySelection Typing.x11Env "hello" =
      ([["xclip", "-selection", "clipboard", "hello"],
        ["xclip", "-selection", "primary", "hello"]], true) ∧
    Typing.PasteText Typing.x11Env =
      ([["xdotool", "key", "--clearmodifiers", "ctrl+v"]], true) :=
  ⟨rfl, rfl⟩

/-- C4 (amended): on X11 with xclip and xdotool available, the text is
written to BOTH the general clipboard and the primary selection (the
user's clipboard is overwritten), and the first paste chord attempted is
Ctrl+V; Shift+Insert is only a fallback. -/
theorem C4_both_selections_ctrl_v_first (env : Typing.Env) (text : String)
    (hW : env.isWayland = false) (hx : env.avail "xclip" = true)
    (hd : env.avail "xdotool" = true) :
    Typing.SetPrimarySelection env text =
      ([["xclip", "-selection", "clipboard", text],
        ["xclip", "-selection", "primary", text]], true) ∧
    (Typing.PasteText env).1.head? = some ["xdotool", "key", "--clearmodifiers", "ctrl+v"] := by
  constructor
  · unfold Typing.SetPrimarySelection
    simp [hW, hx]
  · unfold Typing.PasteText
    simp only [hW, hd, Bool.false_and, Bool.and_false, Bool.true_and, Bool.false_or]
    split_ifs <;> simp_all

/-- Witness for C4 at a concrete environment and text. -/
theorem C4_witness :
    Typing.SetPrimarySelection Typing.x11Env "dictated words" =
      ([["xclip", "-selection", "clipboard", "dictated words"],
        ["xclip", "-selection", "primary", "dictated words"]], true) ∧
    (Typing.PasteText Typing.x11Env).1.head? =
      some ["xdotool", "key", "--clearmodifiers", "ctrl+v"] :=
  C4_both_selections_ctrl_v_first Typing.x11Env "dictated words" rfl rfl rfl

/-- C5: evaluating `main` at the failing input.  With the stop flag, a
PID lock file present but recording a dead process (liveness probe
false), the process still exits 0: the control path uses
`os.FindProcess`, which always succeeds on Unix, sends the signal into
the void with its error discarded, and exits 0 — the claimed exit
code 1 branch is unreachable whenever the file is readable. -/
theorem C5_stale_pid_stop_exits_zero :
    Gui.runMain false true
        { pidFile := some 999999, alive := fun _ => false, selfPid := 1234 } =
      Gui.MainOutcome.exit 0 := rfl

/-- C6: at startup (no control flags), when the PID lock file exists but
its recorded process fails the `Signal(0)` liveness probe, the new
invocation neither defers nor exits: it proceeds as the active instance
and overwrites the lock file with its own PID. -/
theorem C6_stale_lock_overwritten (pid selfPid : Nat) (alive : Nat → Bool)
    (h : alive pid = false) :
    Gui.runMain false false { pidFile := some pid, alive := alive, selfPid := selfPid } =
      Gui.MainOutcome.proceedAsPrimary selfPid := by
  simp [Gui.runMain, Gui.mainAppPath, Gui.findProcessOk, h]

/-- Witness for C6: lock file holds dead PID 999999, new process 4242
becomes primary and writes its own PID. -/
theorem C6_witness :
    Gui.runMain false false { pidFile := some 999999, alive := fun _ => false, selfPid := 4242 } =
      Gui.MainOutcome.proceedAsPrimary 4242 :=
  C6_stale_lock_overwritten 999999 4242 (fun _ => false) rfl

/-- C7 counterexample: HTTP status 501 is a 5xx status but the client
does NOT produce the server-error typed failure for it — it falls into
the generic "API error (status …)" default branch (only 500, 502, 503
and 504 are mapped to "server error"). -/
theorem C7_counterexample :
    Api.Transcribe [1] true (Api.HttpResult.response 501 "oops" none) =
      Except.error (Api.TranscribeError.httpError (Api.RespError.apiError 501 "oops")) ∧
    Api.isServerErr (Api.TranscribeError.httpError (Api.RespError.apiError 501 "oops")) = false :=
  ⟨rfl, rfl⟩

/-- C7 (amended): for every call with non-empty audio and successful WAV
encoding, the result is the decoded text, or a typed failure matching
the cause: auth for 401, rate-limit for 429, network when the request
itself fails, bad-request for 400, server error exactly for 500, 502,
503 and 504 (other statuses, including other 5xx such as 501, yield the
generic API error carrying the status), and a decode failure when the
success body cannot be parsed. -/
theorem C7_transcribe_error_taxonomy (a : List Nat) (b : String) (d : Option String) (st : Nat)
    (ha : a ≠ []) :
    Api.Transcribe a true Api.HttpResult.netFail =
      Except.error Api.TranscribeError.networkError ∧
    Api.Transcribe a true (Api.HttpResult.response 401 b d) =
      Except.error (Api.TranscribeError.httpError Api.RespError.apiKeyInvalid) ∧
    Api.Transcribe a true (Api.HttpResult.response 429 b d) =
      Except.error (Api.TranscribeError.httpError Api.RespError.rateLimited) ∧
    Api.Transcribe a true (Api.HttpResult.response 400 b d) =
      Except.error (Api.TranscribeError.httpError (Api.RespError.badRequest b)) ∧
    (st = 500 ∨ st = 502 ∨ st = 503 ∨ st = 504 →
      Api.Transcribe a true (Api.HttpResult.response st b d) =
        Except.error (Api.TranscribeError.httpError (Api.RespError.serverError b))) ∧
    (st ≠ 200 → st ≠ 400 → st ≠ 401 → st ≠ 429 →
     st ≠ 500 → st ≠ 502 → st ≠ 503 → st ≠ 504 →
      Api.Transcribe a true (Api.HttpResult.response st b d) =
        Except.error (Api.TranscribeError.httpError (Api.RespError.apiError st b))) ∧
    Api.Transcribe a true (Api.HttpResult.response 200 b none) =
      Except.error Api.TranscribeError.decodeFailed ∧
    (∀ t, Api.Transcribe a true (Api.HttpResult.response 200 b (some t)) = Except.ok t) := by
  have hae : a.isEmpty = false := by cases a <;> simp_all
  refine ⟨?_, ?_, ?_, ?_, ?_, ?_, ?_, ?_⟩
  · simp [Api.Transcribe, hae]
  · simp [Api.Transcribe, Api.handleErrorResponse, hae]
  · simp [Api.Transcribe, Api.handleErrorResponse, hae]
  · simp [Api.Transcribe, Api.handleErrorResponse, hae]
  · rintro (rfl | rfl | rfl | rfl) <;> simp [Api.Transcribe, Api.handleErrorResponse, hae]
  · intro h200 h400 h401 h429 h500 h502 h503 h504
    simp [Api.Transcribe, Api.handleErrorResponse, hae,
      h200, h400, h401, h429, h500, h502, h503, h504]
  · simp [Api.Transcribe, hae]
  · intro t
    simp [Api.Transcribe, hae]

/-- Witness for C7 at concrete calls: a transport failure, a 502
response, and a decodable success body. -/
theorem C7_witness :
    Api.Transcribe [1] true Api.HttpResult.netFail =
      Except.error Api.TranscribeError.networkError ∧
    Api.Transcribe [1] true (Api.HttpResult.response 502 "e" none) =
      Except.error (Api.TranscribeError.httpError (Api.RespError.serverError "e")) ∧
    Api.Transcribe [1] true (Api.HttpResult.response 200 "e" (some "hi")) = Except.ok "hi" :=
  ⟨(C7_transcribe_error_taxonomy [1] "e" none 502 (by decide)).1,
   (C7_transcribe_error_taxonomy [1] "e" none 502 (by decide)).2.2.2.2.1
     (Or.inr (Or.inl rfl)),
   (C7_transcribe_error_taxonomy [1] "e" none 502 (by decide)).2.2.2.2.2.2.2 "hi"⟩

/-- C8: when the keyboard id was found but keycode resolution yields no
matches for a chord component (empty code set for Ctrl or for Space),
the detector substitutes the hard-coded defaults — 37 and 105 for Ctrl,
65 for Space — logs a warning, and enters the polling loop instead of
failing to start. -/
theorem C8_default_keycodes (kid : String) (out : Option String)
    (hk : ¬kid = "")
    (h : Hotkey.resolveKeycodes out ["Control_L", "Control_R"] = [] ∨
         Hotkey.resolveKeycodes out ["space"] = []) :
    Hotkey.pollKeyPressX11Setup kid out =
      Hotkey.PollSetup.poll ["37", "105"] ["65"] := by
  unfold Hotkey.pollKeyPressX11Setup
  rw [if_neg hk]
  rcases h with h | h <;>
    simp [h, Hotkey.defaultCtrlCodes, Hotkey.defaultSpaceCodes]

/-- Witness for C8: xmodmap itself failed, so both resolutions are
empty; the detector polls with the default codes. -/
theorem C8_witness :
    Hotkey.pollKeyPressX11Setup "3" none =
      Hotkey.PollSetup.poll ["37", "105"] ["65"] :=
  C8_default_keycodes "3" none (by decide) (Or.inl rfl)

/-- C9: calling `StopRecording` on a capture that is not currently
recording returns the typed "not recording" error and leaves the state
(including the `isRecording` flag and the buffer) untouched; no bytes
are returned. -/
theorem C9_stop_before_start (s : Audio.System) (h : s.isRecording = false) :
    Audio.System.StopRecording s = (s, Except.error Audio.AudioErr.notRecording) := by
  unfold Audio.System.StopRecording
  rw [if_pos h]

/-- Witness for C9 at a concrete never-started state with a stale
buffer. -/
theorem C9_witness :
    Audio.System.StopRecording ⟨false, [5]⟩ =
      ((⟨false, [5]⟩ : Audio.System), Except.error Audio.AudioErr.notRecording) :=
  C9_stop_before_start ⟨false, [5]⟩ rfl

/-- C10: sessions are isolated.  `StartRecording` resets the internal
buffer to empty, so a successful `StopRecording` of a session started
from ANY prior state returns exactly the bytes captured during that
session (never bytes of an earlier one), and the internal buffer is
cleared afterwards. -/
theorem C10_sessions_isolated (s : Audio.System) (chunks : List (List Nat))
    (h : s.isRecording = false) :
    (Audio.System.StartRecording s true).1.audioBuffer = [] ∧
    (∀ L, (Audio.runSession s chunks).2 = Except.ok L → L = chunks.flatten) ∧
    (Audio.runSession s chunks).1.audioBuffer = [] := by
  have hstart : Audio.System.StartRecording s true =
      ((⟨true, []⟩ : Audio.System), none) := by
    unfold Audio.System.StartRecording
    simp [h]
  have hrun : Audio.runSession s chunks =
      Audio.System.StopRecording ⟨true, chunks.flatten⟩ := by
    unfold Audio.runSession
    rw [hstart]
    simp [Audio.System.readAudio]
  refine ⟨by rw [hstart], ?_, ?_⟩
  · intro L hL
    rw [hrun] at hL
    unfold Audio.System.StopRecording at hL
    by_cases hc : chunks.flatten.isEmpty
    · simp [hc] at hL
    · simp [hc] at hL
      exact hL.symm
  · rw [hrun]
    unfold Audio.System.StopRecording
    by_cases hc : chunks.flatten.isEmpty
    · simp [hc]
      simpa using hc
    · simp [hc]

/-- Witness for C10: a state with a stale two-byte buffer runs a session
capturing chunks [1,2] and [3]; the result is exactly [1,2,3] and the
buffer ends empty. -/
theorem C10_witness :
    (Audio.runSession ⟨false, [9, 9]⟩ [[1, 2], [3]]).1.audioBuffer = [] ∧
    ([1, 2, 3] : List Nat) = ([[1, 2], [3]] : List (List Nat)).flatten :=
  ⟨(C10_sessions_isolated ⟨false, [9, 9]⟩ [[1, 2], [3]] rfl).2.2,
   (C10_sessions_isolated ⟨false, [9, 9]⟩ [[1, 2], [3]] rfl).2.1 [1, 2, 3] rfl⟩

end VoiceType
